import Mathlib

/-!
Shallow embedding of the annotation canvas of InsightLabeler
(`annotate_canvas.py`, class `AnnotateCanvas`).

Modelling conventions:
- Python floats are modelled as exact rationals (`ℚ`); the float literals
  `0.95`, `1.1`, `1/1.1`, `1/1.2` become `19/20`, `11/10`, `10/11`, `5/6`.
- The Qt widget state (attributes of the `AnnotateCanvas` instance) is an
  explicit record `Canvas`; each event handler / method is a function
  `Canvas → … → Canvas`.
- A `QPixmap` is a width/height pair plus its `isNull` flag; `base_pixmap`
  is `Option Pixmap` (`none` = Python `None`).
- The widget size (`self.width()`, `self.height()`) is part of the state
  (`widget_width`, `widget_height`); a Qt resize event updates it before the
  handler body runs, so `resizeEvent` takes the new size as arguments.
- Mouse positions are points with rational coordinates.
-/

namespace InsightLabeler

/-- A point (screen- or image-space), `QPointF`. -/
structure Pt where
  x : ℚ
  y : ℚ
deriving DecidableEq

/-- An annotation box `(x1, y1, x2, y2, label)`; corner order is not
normalized at storage time. -/
structure Box where
  x1 : ℚ
  y1 : ℚ
  x2 : ℚ
  y2 : ℚ
  label : String
deriving DecidableEq

/-- The base image: width/height plus the `isNull` flag of `QPixmap`. -/
structure Pixmap where
  width : ℚ
  height : ℚ
  isNull : Bool
deriving DecidableEq

/-- The eight resize-handle identities (the Python strings
`'top-left'`, …, `'right'`). -/
inductive Handle where
  | topLeft
  | topRight
  | bottomLeft
  | bottomRight
  | top
  | bottom
  | left
  | right
deriving DecidableEq

/-- Python `'left' in handle`: substring test on the handle strings. -/
def Handle.hasLeft : Handle → Bool
  | .topLeft | .bottomLeft | .left => true
  | _ => false

/-- Python `'right' in handle`. -/
def Handle.hasRight : Handle → Bool
  | .topRight | .bottomRight | .right => true
  | _ => false

/-- Python `'top' in handle` (note `'top' in 'top-left'` is true). -/
def Handle.hasTop : Handle → Bool
  | .topLeft | .topRight | .top => true
  | _ => false

/-- Python `'bottom' in handle`. -/
def Handle.hasBottom : Handle → Bool
  | .bottomLeft | .bottomRight | .bottom => true
  | _ => false

inductive MouseButton where
  | left
  | right
deriving DecidableEq

inductive Key where
  | delete
  | backspace
  | escape
  | other
deriving DecidableEq

/-- The mutable state of the `AnnotateCanvas` widget (its `__init__`
attributes plus the widget size). -/
structure Canvas where
  boxes : List Box
  current_box : Option Box
  selected_box : Option ℕ
  base_pixmap : Option Pixmap
  auto_fit : Bool
  zoom_level : ℚ
  offset_x : ℚ
  offset_y : ℚ
  edit_enabled : Bool
  draw_mode : Bool
  is_panning : Bool
  last_mouse_pos : Option Pt
  start_pos : Option Pt
  resize_handle : Option Handle
  resize_start_pos : Option Pt
  resize_start_box : Option Box
  widget_width : ℚ
  widget_height : ℚ
deriving DecidableEq

/-- `mapToImagePos`: widget coordinates to image coordinates,
`image = (screen - offset) / zoom_level`. -/
def mapToImagePos (c : Canvas) (widget_pos : Pt) : Pt :=
  ⟨(widget_pos.x - c.offset_x) / c.zoom_level,
   (widget_pos.y - c.offset_y) / c.zoom_level⟩

/-- The rendering transform of `paintEvent`: translate by the offset, then
scale by the zoom, so `screen = image * zoom_level + offset`. -/
def to_screen (c : Canvas) (image_pos : Pt) : Pt :=
  ⟨image_pos.x * c.zoom_level + c.offset_x,
   image_pos.y * c.zoom_level + c.offset_y⟩

/-- `fit_to_window`: fit the image at 95% of the widget size and center it;
no-op when the pixmap is absent/null or any dimension is non-positive. -/
def fit_to_window (c : Canvas) : Canvas :=
  match c.base_pixmap with
  | none => c
  | some pm =>
    if pm.isNull then c
    else if c.widget_width ≤ 0 ∨ c.widget_height ≤ 0 then c
    else if pm.width ≤ 0 ∨ pm.height ≤ 0 then c
    else
      let scale_x := (c.widget_width * (19/20)) / pm.width
      let scale_y := (c.widget_height * (19/20)) / pm.height
      let zoom := min scale_x scale_y
      { c with zoom_level := zoom,
               offset_x := (c.widget_width - pm.width * zoom) / 2,
               offset_y := (c.widget_height - pm.height * zoom) / 2 }

/-- `_constrain_view`: center the image per axis when it fits the widget,
otherwise clamp the offset to `[widget - scaled, 0]`; no-op when the pixmap
is absent/null. -/
def constrain_view (c : Canvas) : Canvas :=
  match c.base_pixmap with
  | none => c
  | some pm =>
    if pm.isNull then c
    else
      let scaled_width := pm.width * c.zoom_level
      let scaled_height := pm.height * c.zoom_level
      let ox := if scaled_width ≤ c.widget_width then
                  (c.widget_width - scaled_width) / 2
                else
                  max (min c.offset_x 0) (c.widget_width - scaled_width)
      let oy := if scaled_height ≤ c.widget_height then
                  (c.widget_height - scaled_height) / 2
                else
                  max (min c.offset_y 0) (c.widget_height - scaled_height)
      { c with offset_x := ox, offset_y := oy }

/-- The shared core of `zoom_at_point` / `wheelEvent` once the new zoom has
passed the range check: record the image point under the cursor, set the new
zoom, and recompute the offset so that point stays under the cursor. -/
def zoom_at_point_apply (c : Canvas) (point : Pt) (new_zoom : ℚ) : Canvas :=
  let image_pos := mapToImagePos c point
  { c with zoom_level := new_zoom,
           offset_x := point.x - image_pos.x * new_zoom,
           offset_y := point.y - image_pos.y * new_zoom }

/-- `zoom_at_point(point, factor)`: multiply the zoom by `factor`; if the
result lies in `[0.1, 10.0]` apply it keeping the cursor's image point
fixed, run the view constraint, and drop `auto_fit`; otherwise no-op. -/
def zoom_at_point (c : Canvas) (point : Pt) (factor : ℚ) : Canvas :=
  let new_zoom := c.zoom_level * factor
  if 1/10 ≤ new_zoom ∧ new_zoom ≤ 10 then
    { constrain_view (zoom_at_point_apply c point new_zoom) with auto_fit := false }
  else c

/-- `wheelEvent`: zoom by `1.1` when the wheel delta is positive, else by
`1/1.1`, centered at the mouse position, with the same range check,
view constraint and `auto_fit` reset as `zoom_at_point`. -/
def wheelEvent (c : Canvas) (mouse_pos : Pt) (delta : ℤ) : Canvas :=
  let zoom_factor : ℚ := if delta > 0 then 11/10 else 10/11
  let new_zoom := c.zoom_level * zoom_factor
  if 1/10 ≤ new_zoom ∧ new_zoom ≤ 10 then
    { constrain_view (zoom_at_point_apply c mouse_pos new_zoom) with auto_fit := false }
  else c

/-- `clear_boxes`. -/
def clear_boxes (c : Canvas) : Canvas :=
  { c with boxes := [], selected_box := none, current_box := none }

/-- `set_image`: install the pixmap, re-enable `auto_fit`, refit, and clear
all boxes. -/
def set_image (c : Canvas) (pm : Pixmap) : Canvas :=
  clear_boxes (fit_to_window { c with base_pixmap := some pm, auto_fit := true })

/-- `load_boxes`: destructive replace clearing selection and the
in-progress box. -/
def load_boxes (c : Canvas) (box_list : List Box) : Canvas :=
  { c with boxes := box_list, selected_box := none, current_box := none }

/-- `delete_selected_box`: delete the selected index when it is valid. -/
def delete_selected_box (c : Canvas) : Canvas :=
  match c.selected_box with
  | none => c
  | some i =>
    if i < c.boxes.length then
      { c with boxes := c.boxes.eraseIdx i, selected_box := none }
    else c

/-- The hit predicate of `get_box_at_position`: the normalized rectangle
expanded by 5 image-space pixels on each side contains the point. -/
def boxHit (pos : Pt) (b : Box) : Bool :=
  decide (min b.x1 b.x2 - 5 ≤ pos.x) && decide (pos.x ≤ max b.x1 b.x2 + 5) &&
  decide (min b.y1 b.y2 - 5 ≤ pos.y) && decide (pos.y ≤ max b.y1 b.y2 + 5)

/-- The enumeration loop of `get_box_at_position`: index of the first box
hit by the point. -/
def find_box_at (pos : Pt) : List Box → Option ℕ
  | [] => none
  | b :: bs => if boxHit pos b then some 0 else (find_box_at pos bs).map (· + 1)

/-- `get_box_at_position(pos)`: first box (in storage order) whose expanded
rectangle contains the image-space point, else `None`. -/
def get_box_at_position (c : Canvas) (pos : Pt) : Option ℕ :=
  find_box_at pos c.boxes

/-- `delete_box_at_position(pos)`: hit-test, delete on hit, fix up the
selected index, and report whether a box was deleted. -/
def delete_box_at_position (c : Canvas) (pos : Pt) : Canvas × Bool :=
  match get_box_at_position c pos with
  | none => (c, false)
  | some box_index =>
    let sel := match c.selected_box with
      | none => none
      | some s =>
        if s = box_index then none
        else if s > box_index then some (s - 1)
        else some s
    ({ c with boxes := c.boxes.eraseIdx box_index, selected_box := sel }, true)

/-- `get_resize_handle(pos, box_index)`: test the 8 handle regions of the
normalized box with tolerance `8 / zoom_level`. -/
def get_resize_handle (c : Canvas) (pos : Pt) (box_index : ℕ) : Option Handle :=
  match c.boxes.get? box_index with
  | none => none
  | some b =>
    let left := min b.x1 b.x2
    let right := max b.x1 b.x2
    let top := min b.y1 b.y2
    let bottom := max b.y1 b.y2
    let handle_size := 8 / c.zoom_level
    if |pos.x - left| ≤ handle_size ∧ |pos.y - top| ≤ handle_size then some .topLeft
    else if |pos.x - right| ≤ handle_size ∧ |pos.y - top| ≤ handle_size then some .topRight
    else if |pos.x - left| ≤ handle_size ∧ |pos.y - bottom| ≤ handle_size then some .bottomLeft
    else if |pos.x - right| ≤ handle_size ∧ |pos.y - bottom| ≤ handle_size then some .bottomRight
    else if |pos.x - (left + right) / 2| ≤ handle_size ∧ |pos.y - top| ≤ handle_size then some .top
    else if |pos.x - (left + right) / 2| ≤ handle_size ∧ |pos.y - bottom| ≤ handle_size then some .bottom
    else if |pos.x - left| ≤ handle_size ∧ |pos.y - (top + bottom) / 2| ≤ handle_size then some .left
    else if |pos.x - right| ≤ handle_size ∧ |pos.y - (top + bottom) / 2| ≤ handle_size then some .right
    else none

/-- `resize_box(pos)`: from the gesture-start snapshot `resize_start_box`,
move the edges named by the handle by the accumulated delta, then push the
moving edge back when the absolute per-axis dimension falls below 10. -/
def resize_box (c : Canvas) (pos : Pt) : Canvas :=
  match c.resize_handle, c.resize_start_pos, c.resize_start_box, c.selected_box with
  | some handle, some sp, some sb, some sel =>
    if c.boxes.length ≤ sel then c
    else
      let dx := pos.x - sp.x
      let dy := pos.y - sp.y
      let x1 := if handle.hasLeft then sb.x1 + dx else sb.x1
      let x2 := if handle.hasRight then sb.x2 + dx else sb.x2
      let y1 := if handle.hasTop then sb.y1 + dy else sb.y1
      let y2 := if handle.hasBottom then sb.y2 + dy else sb.y2
      let x1' := if |x2 - x1| < 10 ∧ handle.hasLeft then x2 - 10 else x1
      let x2' := if |x2 - x1| < 10 ∧ ¬handle.hasLeft then x1 + 10 else x2
      let y1' := if |y2 - y1| < 10 ∧ handle.hasTop then y2 - 10 else y1
      let y2' := if |y2 - y1| < 10 ∧ ¬handle.hasTop then y1 + 10 else y2
      { c with boxes := c.boxes.set sel ⟨x1', y1', x2', y2', sb.label⟩ }
  | _, _, _, _ => c

/-- `mousePressEvent`. -/
def mousePressEvent (c : Canvas) (button : MouseButton) (pos : Pt) : Canvas :=
  if !c.edit_enabled then
    match button with
    | .left => { c with is_panning := true, last_mouse_pos := some pos }
    | .right => zoom_at_point c pos (5/6)
  else
    match button with
    | .left =>
      if c.draw_mode then
        let ip := mapToImagePos c pos
        { c with start_pos := some ip,
                 selected_box := none,
                 current_box := some ⟨ip.x, ip.y, ip.x, ip.y, ""⟩ }
      else
        let ip := mapToImagePos c pos
        match get_box_at_position c ip with
        | some clicked_box_index =>
          let h := get_resize_handle c ip clicked_box_index
          let c1 := { c with selected_box := some clicked_box_index,
                             start_pos := some ip,
                             resize_handle := h }
          if h.isSome then
            match c.boxes.get? clicked_box_index with
            | some b => { c1 with resize_start_pos := some ip, resize_start_box := some b }
            | none => c1
          else c1
        | none =>
          { c with is_panning := true, last_mouse_pos := some pos }
    | .right => c

/-- `mouseMoveEvent`; `leftHeld` is `event.buttons() & Qt.LeftButton`.
Cursor-only branches are identity on the modelled state. -/
def mouseMoveEvent (c : Canvas) (leftHeld : Bool) (pos : Pt) : Canvas :=
  if c.is_panning && leftHeld then
    match c.last_mouse_pos with
    | some lp =>
      { c with offset_x := c.offset_x + (pos.x - lp.x),
               offset_y := c.offset_y + (pos.y - lp.y),
               last_mouse_pos := some pos,
               auto_fit := false }
    | none => c
  else if !c.edit_enabled then c
  else
    let ip := mapToImagePos c pos
    if leftHeld && c.start_pos.isSome then
      if c.draw_mode && c.current_box.isSome then
        match c.current_box with
        | some cb => { c with current_box := some ⟨cb.x1, cb.y1, ip.x, ip.y, cb.label⟩ }
        | none => c
      else if !c.draw_mode && c.selected_box.isSome then
        match c.selected_box with
        | some sel =>
          if c.resize_handle.isSome then
            resize_box c ip
          else if sel < c.boxes.length then
            match c.start_pos, c.boxes.get? sel with
            | some sp, some b =>
              let dx := ip.x - sp.x
              let dy := ip.y - sp.y
              { c with boxes := c.boxes.set sel ⟨b.x1 + dx, b.y1 + dy, b.x2 + dx, b.y2 + dy, b.label⟩,
                       start_pos := some ip }
            | _, _ => c
          else c
        | none => c
      else c
    else c

/-- `mouseReleaseEvent`. -/
def mouseReleaseEvent (c : Canvas) (button : MouseButton) : Canvas :=
  if c.is_panning && button == .left then
    { c with is_panning := false, auto_fit := false }
  else if !c.edit_enabled then c
  else if button == .left then
    if c.draw_mode && c.current_box.isSome then
      match c.current_box with
      | some cb =>
        if |cb.x2 - cb.x1| > 5 ∧ |cb.y2 - cb.y1| > 5 then
          { c with boxes := c.boxes ++ [cb],
                   selected_box := some c.boxes.length,
                   current_box := none }
        else { c with current_box := none }
      | none => c
    else
      { c with resize_handle := none, resize_start_pos := none, resize_start_box := none }
  else c

/-- `resizeEvent`: Qt applies the new widget size before the handler runs;
the handler refits only when `auto_fit` is set. -/
def resizeEvent (c : Canvas) (new_w new_h : ℚ) : Canvas :=
  let c1 := { c with widget_width := new_w, widget_height := new_h }
  if c1.auto_fit then fit_to_window c1 else c1

/-- `keyPressEvent` (only when editing is enabled). -/
def keyPressEvent (c : Canvas) (k : Key) : Canvas :=
  if !c.edit_enabled then c
  else
    match k with
    | .delete | .backspace => delete_selected_box c
    | .escape => { c with draw_mode := false, current_box := none, selected_box := none }
    | .other => c

/-- `set_edit_enabled` (cursor side effects are not modelled). -/
def set_edit_enabled (c : Canvas) (enabled : Bool) : Canvas :=
  { c with edit_enabled := enabled }

/-- `set_draw_mode`. -/
def set_draw_mode (c : Canvas) (enabled : Bool) : Canvas :=
  { c with draw_mode := enabled }

/-- The state right after `__init__` (widget size taken as 0 until the
widget is laid out); concrete example states below are built from it. -/
def initCanvas : Canvas where
  boxes := []
  current_box := none
  selected_box := none
  base_pixmap := none
  auto_fit := true
  zoom_level := 1
  offset_x := 0
  offset_y := 0
  edit_enabled := false
  draw_mode := false
  is_panning := false
  last_mouse_pos := none
  start_pos := none
  resize_handle := none
  resize_start_pos := none
  resize_start_box := none
  widget_width := 0
  widget_height := 0

section HelperLemmas

lemma constrain_view_zoom_level (c : Canvas) :
    (constrain_view c).zoom_level = c.zoom_level := by
  unfold constrain_view
  try dsimp only
  repeat' split
  all_goals rfl

lemma constrain_view_boxes (c : Canvas) :
    (constrain_view c).boxes = c.boxes := by
  unfold constrain_view
  try dsimp only
  repeat' split
  all_goals rfl

lemma constrain_view_selected_box (c : Canvas) :
    (constrain_view c).selected_box = c.selected_box := by
  unfold constrain_view
  try dsimp only
  repeat' split
  all_goals rfl

lemma constrain_view_current_box (c : Canvas) :
    (constrain_view c).current_box = c.current_box := by
  unfold constrain_view
  try dsimp only
  repeat' split
  all_goals rfl

lemma constrain_view_base_pixmap (c : Canvas) :
    (constrain_view c).base_pixmap = c.base_pixmap := by
  unfold constrain_view
  try dsimp only
  repeat' split
  all_goals simp_all

lemma zoom_at_point_apply_zoom_level (c : Canvas) (p : Pt) (z : ℚ) :
    (zoom_at_point_apply c p z).zoom_level = z := rfl

lemma zoom_at_point_apply_boxes (c : Canvas) (p : Pt) (z : ℚ) :
    (zoom_at_point_apply c p z).boxes = c.boxes := rfl

lemma zoom_at_point_apply_selected_box (c : Canvas) (p : Pt) (z : ℚ) :
    (zoom_at_point_apply c p z).selected_box = c.selected_box := rfl

lemma zoom_at_point_apply_current_box (c : Canvas) (p : Pt) (z : ℚ) :
    (zoom_at_point_apply c p z).current_box = c.current_box := rfl

lemma zoom_at_point_apply_base_pixmap (c : Canvas) (p : Pt) (z : ℚ) :
    (zoom_at_point_apply c p z).base_pixmap = c.base_pixmap := rfl

lemma zoom_at_point_boxes (c : Canvas) (p : Pt) (f : ℚ) :
    (zoom_at_point c p f).boxes = c.boxes := by
  unfold zoom_at_point
  try dsimp only
  split
  · simp [constrain_view_boxes, zoom_at_point_apply_boxes]
  · rfl

lemma zoom_at_point_selected_box (c : Canvas) (p : Pt) (f : ℚ) :
    (zoom_at_point c p f).selected_box = c.selected_box := by
  unfold zoom_at_point
  try dsimp only
  split
  · simp [constrain_view_selected_box, zoom_at_point_apply_selected_box]
  · rfl

lemma zoom_at_point_current_box (c : Canvas) (p : Pt) (f : ℚ) :
    (zoom_at_point c p f).current_box = c.current_box := by
  unfold zoom_at_point
  try dsimp only
  split
  · simp [constrain_view_current_box, zoom_at_point_apply_current_box]
  · rfl

lemma zoom_at_point_base_pixmap (c : Canvas) (p : Pt) (f : ℚ) :
    (zoom_at_point c p f).base_pixmap = c.base_pixmap := by
  unfold zoom_at_point
  try dsimp only
  split
  · simp [constrain_view_base_pixmap, zoom_at_point_apply_base_pixmap]
  · rfl

lemma zoom_at_point_zoom_bounds (c : Canvas) (p : Pt) (f : ℚ)
    (h : 1/10 ≤ c.zoom_level ∧ c.zoom_level ≤ 10) :
    1/10 ≤ (zoom_at_point c p f).zoom_level ∧ (zoom_at_point c p f).zoom_level ≤ 10 := by
  unfold zoom_at_point
  try dsimp only
  split
  · rename_i hg
    simpa [constrain_view_zoom_level, zoom_at_point_apply_zoom_level] using hg
  · exact h

lemma wheelEvent_zoom_bounds (c : Canvas) (p : Pt) (d : ℤ)
    (h : 1/10 ≤ c.zoom_level ∧ c.zoom_level ≤ 10) :
    1/10 ≤ (wheelEvent c p d).zoom_level ∧ (wheelEvent c p d).zoom_level ≤ 10 := by
  unfold wheelEvent
  try dsimp only
  repeat' split
  all_goals first
    | exact h
    | (rename_i hg
       simpa [constrain_view_zoom_level, zoom_at_point_apply_zoom_level] using hg)

lemma wheelEvent_boxes (c : Canvas) (p : Pt) (d : ℤ) :
    (wheelEvent c p d).boxes = c.boxes := by
  unfold wheelEvent
  try dsimp only
  repeat' split
  all_goals first
    | rfl
    | simp [constrain_view_boxes, zoom_at_point_apply_boxes]

lemma wheelEvent_selected_box (c : Canvas) (p : Pt) (d : ℤ) :
    (wheelEvent c p d).selected_box = c.selected_box := by
  unfold wheelEvent
  try dsimp only
  repeat' split
  all_goals first
    | rfl
    | simp [constrain_view_selected_box, zoom_at_point_apply_selected_box]

lemma fit_to_window_boxes (c : Canvas) :
    (fit_to_window c).boxes = c.boxes := by
  unfold fit_to_window
  try dsimp only
  repeat' split
  all_goals rfl

lemma fit_to_window_selected_box (c : Canvas) :
    (fit_to_window c).selected_box = c.selected_box := by
  unfold fit_to_window
  try dsimp only
  repeat' split
  all_goals rfl

lemma fit_to_window_current_box (c : Canvas) :
    (fit_to_window c).current_box = c.current_box := by
  unfold fit_to_window
  try dsimp only
  repeat' split
  all_goals rfl

lemma fit_to_window_auto_fit (c : Canvas) :
    (fit_to_window c).auto_fit = c.auto_fit := by
  unfold fit_to_window
  try dsimp only
  repeat' split
  all_goals rfl

lemma resize_box_zoom_level (c : Canvas) (p : Pt) :
    (resize_box c p).zoom_level = c.zoom_level := by
  unfold resize_box
  try dsimp only
  repeat' split
  all_goals rfl

lemma resize_box_selected_box (c : Canvas) (p : Pt) :
    (resize_box c p).selected_box = c.selected_box := by
  unfold resize_box
  try dsimp only
  repeat' split
  all_goals rfl

lemma resize_box_boxes_length (c : Canvas) (p : Pt) :
    (resize_box c p).boxes.length = c.boxes.length := by
  unfold resize_box
  try dsimp only
  repeat' split
  all_goals simp [List.length_set]

lemma mouseMoveEvent_zoom_level (c : Canvas) (lh : Bool) (p : Pt) :
    (mouseMoveEvent c lh p).zoom_level = c.zoom_level := by
  unfold mouseMoveEvent
  try dsimp only
  repeat' split
  all_goals first
    | rfl
    | exact resize_box_zoom_level c _

lemma mouseMoveEvent_selected_box (c : Canvas) (lh : Bool) (p : Pt) :
    (mouseMoveEvent c lh p).selected_box = c.selected_box := by
  unfold mouseMoveEvent
  try dsimp only
  repeat' split
  all_goals first
    | rfl
    | exact resize_box_selected_box c _

lemma mouseMoveEvent_boxes_length (c : Canvas) (lh : Bool) (p : Pt) :
    (mouseMoveEvent c lh p).boxes.length = c.boxes.length := by
  unfold mouseMoveEvent
  try dsimp only
  repeat' split
  all_goals first
    | rfl
    | exact resize_box_boxes_length c _
    | simp [List.length_set]

lemma mouseReleaseEvent_zoom_level (c : Canvas) (b : MouseButton) :
    (mouseReleaseEvent c b).zoom_level = c.zoom_level := by
  unfold mouseReleaseEvent
  try dsimp only
  repeat' split
  all_goals rfl

lemma mousePressEvent_zoom_bounds (c : Canvas) (b : MouseButton) (p : Pt)
    (h : 1/10 ≤ c.zoom_level ∧ c.zoom_level ≤ 10) :
    1/10 ≤ (mousePressEvent c b p).zoom_level ∧ (mousePressEvent c b p).zoom_level ≤ 10 := by
  unfold mousePressEvent
  try dsimp only
  repeat' split
  all_goals first
    | exact h
    | exact zoom_at_point_zoom_bounds c p (5/6) h

end HelperLemmas

section ClaimC2

/-- C2: for every zoom level in `[0.1, 10]`, every offset and every screen
point `p`, the screen-to-image map followed by the rendering image-to-screen
map returns `p` (exact over `ℚ`, the float model). -/
theorem C2_round_trip (c : Canvas) (p : Pt)
    (h1 : 1/10 ≤ c.zoom_level) (h2 : c.zoom_level ≤ 10) :
    to_screen c (mapToImagePos c p) = p := by
  have hz : c.zoom_level ≠ 0 := ne_of_gt (lt_of_lt_of_le (by norm_num) h1)
  obtain ⟨px, py⟩ := p
  simp only [to_screen, mapToImagePos, Pt.mk.injEq]
  constructor <;> field_simp

/-- C2 witness: the round trip at a concrete state and point. -/
theorem C2_round_trip_witness :
    1/10 ≤ ({ initCanvas with zoom_level := 2, offset_x := 40, offset_y := -3 } : Canvas).zoom_level ∧
    ({ initCanvas with zoom_level := 2, offset_x := 40, offset_y := -3 } : Canvas).zoom_level ≤ 10 ∧
    to_screen { initCanvas with zoom_level := 2, offset_x := 40, offset_y := -3 }
      (mapToImagePos { initCanvas with zoom_level := 2, offset_x := 40, offset_y := -3 } ⟨7, 9⟩) = ⟨7, 9⟩ :=
  ⟨by norm_num [initCanvas], by norm_num [initCanvas],
   C2_round_trip { initCanvas with zoom_level := 2, offset_x := 40, offset_y := -3 } ⟨7, 9⟩
     (by norm_num [initCanvas]) (by norm_num [initCanvas])⟩

end ClaimC2

section ClaimC1

/-- A 10×10 image viewed in a 100×100 widget at zoom 1: after zooming the
scaled image still fits the widget, so `_constrain_view` re-centers it. -/
def c1cex : Canvas :=
  { initCanvas with base_pixmap := some ⟨10, 10, false⟩,
                    widget_width := 100, widget_height := 100 }

/-- C1 counterexample: with an image set and the new zoom inside `[0.1, 10]`,
`zoom_at_point ⟨0,0⟩ 2` moves the image point under the cursor, because the
final `_constrain_view` re-centers the (still window-fitting) image and
thereby changes the freshly computed offset. -/
theorem C1_counterexample :
    c1cex.base_pixmap.isSome = true ∧
    (1/10 ≤ c1cex.zoom_level * 2 ∧ c1cex.zoom_level * 2 ≤ 10) ∧
    mapToImagePos (zoom_at_point c1cex ⟨0, 0⟩ 2) ⟨0, 0⟩ ≠ mapToImagePos c1cex ⟨0, 0⟩ := by
  refine ⟨rfl, by norm_num [c1cex, initCanvas], ?_⟩
  norm_num [c1cex, initCanvas, zoom_at_point, zoom_at_point_apply, constrain_view,
            mapToImagePos, Pt.mk.injEq]

/-- C1 (amended): after `zoom_at_point(p, f)` with the new zoom inside
`[0.1, 10]`, the image point under the cursor is unchanged PROVIDED the
view-containment step leaves the recomputed offsets alone (which the
counterexample shows is not always the case). -/
theorem C1_zoom_invariance (c : Canvas) (p : Pt) (f : ℚ)
    (hpm : c.base_pixmap.isSome = true)
    (hb1 : 1/10 ≤ c.zoom_level * f) (hb2 : c.zoom_level * f ≤ 10)
    (hfix : constrain_view (zoom_at_point_apply c p (c.zoom_level * f)) =
            zoom_at_point_apply c p (c.zoom_level * f)) :
    mapToImagePos (zoom_at_point c p f) p = mapToImagePos c p := by
  have hnz : c.zoom_level * f ≠ 0 := ne_of_gt (lt_of_lt_of_le (by norm_num) hb1)
  obtain ⟨hz0, hf0⟩ := mul_ne_zero_iff.mp hnz
  unfold zoom_at_point
  try dsimp only
  rw [if_pos ⟨hb1, hb2⟩, hfix]
  obtain ⟨px, py⟩ := p
  simp only [mapToImagePos, zoom_at_point_apply, Pt.mk.injEq]
  constructor <;> field_simp <;> ring

/-- A 200×200 image in a 100×100 widget, panned so that after zooming at the
origin the clamped offset range still contains the recomputed offset. -/
def c1wit : Canvas :=
  { initCanvas with base_pixmap := some ⟨200, 200, false⟩,
                    widget_width := 100, widget_height := 100,
                    offset_x := -10, offset_y := -10 }

/-- C1 witness: the amended invariance at a concrete state where the
containment step is inert. -/
theorem C1_zoom_invariance_witness :
    c1wit.base_pixmap.isSome = true ∧
    (1/10 ≤ c1wit.zoom_level * 2 ∧ c1wit.zoom_level * 2 ≤ 10) ∧
    mapToImagePos (zoom_at_point c1wit ⟨0, 0⟩ 2) ⟨0, 0⟩ = mapToImagePos c1wit ⟨0, 0⟩ :=
  ⟨rfl, by norm_num [c1wit, initCanvas],
   C1_zoom_invariance c1wit ⟨0, 0⟩ 2 rfl
     (by norm_num [c1wit, initCanvas]) (by norm_num [c1wit, initCanvas])
     (by norm_num [c1wit, initCanvas, constrain_view, zoom_at_point_apply, mapToImagePos])⟩

end ClaimC1

section ClaimC3

/-- A 10000×10000 image in a 100×100 widget: the fit scale is `19/2000`,
far below the documented lower zoom bound `0.1`. -/
def c3cex : Canvas :=
  { initCanvas with base_pixmap := some ⟨10000, 10000, false⟩,
                    widget_width := 100, widget_height := 100 }

/-- C3 counterexample: `fit_to_window` (hence `set_image`) does NOT preserve
`0.1 ≤ zoom_level ≤ 10.0`: it assigns the unclamped fit scale, here
`19/2000 < 0.1`, from a state satisfying the invariant. -/
theorem C3_counterexample :
    (1/10 ≤ c3cex.zoom_level ∧ c3cex.zoom_level ≤ 10) ∧
    ¬(1/10 ≤ (fit_to_window c3cex).zoom_level ∧ (fit_to_window c3cex).zoom_level ≤ 10) := by
  constructor
  · norm_num [c3cex, initCanvas]
  · norm_num [c3cex, initCanvas, fit_to_window]

/-- C3 (amended): `zoom_at_point`, wheel zoom, and the pan / press / release
handlers preserve `0.1 ≤ zoom_level ≤ 10.0`; `fit_to_window` (used by
`set_image` and auto-fit resizes) is excluded, since it assigns the
unclamped fit scale. -/
theorem C3_zoom_bounds (c : Canvas) (p q r : Pt) (f : ℚ) (d : ℤ) (lh : Bool)
    (b b2 : MouseButton)
    (h : 1/10 ≤ c.zoom_level ∧ c.zoom_level ≤ 10) :
    (1/10 ≤ (zoom_at_point c p f).zoom_level ∧ (zoom_at_point c p f).zoom_level ≤ 10) ∧
    (1/10 ≤ (wheelEvent c q d).zoom_level ∧ (wheelEvent c q d).zoom_level ≤ 10) ∧
    (1/10 ≤ (mouseMoveEvent c lh r).zoom_level ∧ (mouseMoveEvent c lh r).zoom_level ≤ 10) ∧
    (1/10 ≤ (mousePressEvent c b p).zoom_level ∧ (mousePressEvent c b p).zoom_level ≤ 10) ∧
    (1/10 ≤ (mouseReleaseEvent c b2).zoom_level ∧ (mouseReleaseEvent c b2).zoom_level ≤ 10) :=
  ⟨zoom_at_point_zoom_bounds c p f h,
   wheelEvent_zoom_bounds c q d h,
   by rw [mouseMoveEvent_zoom_level]; exact h,
   mousePressEvent_zoom_bounds c b p h,
   by rw [mouseReleaseEvent_zoom_level]; exact h⟩

/-- C3 witness: the preserved bounds at the initial state under a concrete
zoom request. -/
theorem C3_zoom_bounds_witness :
    (1/10 ≤ initCanvas.zoom_level ∧ initCanvas.zoom_level ≤ 10) ∧
    (1/10 ≤ (zoom_at_point initCanvas ⟨0, 0⟩ 2).zoom_level ∧
      (zoom_at_point initCanvas ⟨0, 0⟩ 2).zoom_level ≤ 10) :=
  ⟨by norm_num [initCanvas],
   (C3_zoom_bounds initCanvas ⟨0, 0⟩ ⟨0, 0⟩ ⟨0, 0⟩ 2 1 true .left .left
     (by norm_num [initCanvas])).1⟩

end ClaimC3

section ClaimC4

/-- An edit-mode draw gesture whose in-progress box is 2×1 (too small). -/
def c4small : Canvas :=
  { initCanvas with edit_enabled := true, draw_mode := true,
                    current_box := some ⟨10, 10, 12, 11, ""⟩ }

/-- An edit-mode draw gesture whose in-progress box is 10×10. -/
def c4big : Canvas :=
  { initCanvas with edit_enabled := true, draw_mode := true,
                    current_box := some ⟨10, 10, 20, 20, ""⟩ }

/-- C4: on pointer-up of a draw gesture (edit enabled, draw mode, not
panning, in-progress box `cb`), the box is appended and selected exactly when
`|x2-x1| > 5` and `|y2-y1| > 5`; otherwise the store and selection are
unchanged; in both cases the in-progress box is cleared. The last two
conjuncts are the spec's concrete instances: a (10,10)-(12,11) draw is
discarded and a (10,10)-(20,20) draw is appended. -/
theorem C4_draw_commit (c : Canvas) (cb : Box)
    (he : c.edit_enabled = true) (hd : c.draw_mode = true)
    (hp : c.is_panning = false) (hc : c.current_box = some cb) :
    ((mouseReleaseEvent c .left).boxes = c.boxes ++ [cb] ∧
       (mouseReleaseEvent c .left).selected_box = some c.boxes.length ↔
     |cb.x2 - cb.x1| > 5 ∧ |cb.y2 - cb.y1| > 5) ∧
    (¬(|cb.x2 - cb.x1| > 5 ∧ |cb.y2 - cb.y1| > 5) →
       (mouseReleaseEvent c .left).boxes = c.boxes ∧
       (mouseReleaseEvent c .left).selected_box = c.selected_box) ∧
    (mouseReleaseEvent c .left).current_box = none ∧
    (mouseReleaseEvent c4small .left).boxes = [] ∧
    (mouseReleaseEvent c4big .left).boxes = [⟨10, 10, 20, 20, ""⟩] := by
  have hsmall : (mouseReleaseEvent c4small .left).boxes = [] := by
    norm_num [mouseReleaseEvent, c4small, initCanvas]
  have hbig : (mouseReleaseEvent c4big .left).boxes = [⟨10, 10, 20, 20, ""⟩] := by
    norm_num [mouseReleaseEvent, c4big, initCanvas]
  have hrel : mouseReleaseEvent c .left =
      if |cb.x2 - cb.x1| > 5 ∧ |cb.y2 - cb.y1| > 5 then
        { c with boxes := c.boxes ++ [cb],
                 selected_box := some c.boxes.length,
                 current_box := none }
      else { c with current_box := none } := by
    unfold mouseReleaseEvent
    simp [hp, he, hd, hc]
  rw [hrel]
  by_cases hsz : |cb.x2 - cb.x1| > 5 ∧ |cb.y2 - cb.y1| > 5
  · rw [if_pos hsz]
    refine ⟨⟨fun _ => hsz, fun _ => ⟨rfl, rfl⟩⟩, fun hn => absurd hsz hn, rfl, hsmall, hbig⟩
  · rw [if_neg hsz]
    refine ⟨⟨fun hab => absurd ?_ hsz, fun hy => absurd hy hsz⟩,
            fun _ => ⟨rfl, rfl⟩, rfl, hsmall, hbig⟩
    exact absurd (congrArg List.length hab.1) (by simp)

/-- C4 witness: the commit behaviour at the concrete 10×10 draw gesture. -/
theorem C4_draw_commit_witness :
    (mouseReleaseEvent c4big .left).boxes = c4big.boxes ++ [⟨10, 10, 20, 20, ""⟩] ∧
    (mouseReleaseEvent c4big .left).selected_box = some c4big.boxes.length ∧
    (mouseReleaseEvent c4big .left).current_box = none := by
  obtain ⟨hiff, _, hclear, _, _⟩ :=
    C4_draw_commit c4big ⟨10, 10, 20, 20, ""⟩ rfl rfl rfl rfl
  obtain ⟨hb, hs⟩ := hiff.mpr (by norm_num)
  exact ⟨hb, hs, hclear⟩

end ClaimC4

section ClaimC5

/-- A resize gesture in progress on box `(0,0,100,100)` via the right-edge
handle, anchored at screen-independent image point `(100,50)`. -/
def c5cex : Canvas :=
  { initCanvas with edit_enabled := true,
                    boxes := [⟨0, 0, 100, 100, "A"⟩], selected_box := some 0,
                    resize_handle := some .right,
                    resize_start_pos := some ⟨100, 50⟩,
                    resize_start_box := some ⟨0, 0, 100, 100, "A"⟩ }

/-- C5 counterexample: dragging the right edge by `dx = -150` makes
`x2 - x1 = -50 < 10`, yet the code does not clamp (its test is on the
absolute dimension `|x2 - x1| = 50 ≥ 10`): the resulting `x2` is `-50`, not
`x1 + 10 = 10` as the claim demands. -/
theorem C5_counterexample :
    (resize_box c5cex ⟨-50, 50⟩).boxes = [⟨0, 0, -50, 100, "A"⟩] ∧
    ((-50 : ℚ) - 0 < 10) ∧
    ((-50 : ℚ) ≠ 0 + 10) := by
  refine ⟨?_, by norm_num, by norm_num⟩
  norm_num [resize_box, c5cex, initCanvas,
            Handle.hasLeft, Handle.hasRight, Handle.hasTop, Handle.hasBottom]

/-- C5 (amended): the resize floor triggers on the absolute per-axis
dimension: for a right-edge resize whose accumulated delta makes
`|x2 - x1| < 10`, the moving edge is set to exactly `x1 + 10`, with the
non-moving corner and the label unchanged (the anchor's own height must
already be ≥ 10, else the y-floor also rewrites `y2`). -/
theorem C5_resize_floor (c : Canvas) (sp : Pt) (sb : Box) (sel : ℕ) (pos : Pt)
    (hh : c.resize_handle = some .right)
    (hsp : c.resize_start_pos = some sp)
    (hsb : c.resize_start_box = some sb)
    (hsel : c.selected_box = some sel)
    (hlen : sel < c.boxes.length)
    (hy : 10 ≤ |sb.y2 - sb.y1|)
    (hx : |sb.x2 + (pos.x - sp.x) - sb.x1| < 10) :
    (resize_box c pos).boxes =
      c.boxes.set sel ⟨sb.x1, sb.y1, sb.x1 + 10, sb.y2, sb.label⟩ := by
  unfold resize_box
  rw [hh, hsp, hsb, hsel]
  try dsimp only
  rw [if_neg (by omega : ¬c.boxes.length ≤ sel)]
  simp [Handle.hasLeft, Handle.hasRight, Handle.hasTop, Handle.hasBottom,
        hx, not_lt.mpr hy]

/-- C5 witness: dragging the right edge inward to width 5 clamps the box to
width exactly 10. -/
theorem C5_resize_floor_witness :
    (resize_box c5cex ⟨5, 50⟩).boxes = [⟨0, 0, 10, 100, "A"⟩] := by
  have h := C5_resize_floor c5cex ⟨100, 50⟩ ⟨0, 0, 100, 100, "A"⟩ 0 ⟨5, 50⟩
    rfl rfl rfl rfl (by norm_num [c5cex, initCanvas]) (by norm_num) (by norm_num)
  rw [h]
  norm_num [c5cex, initCanvas]

end ClaimC5

section ClaimC7

/-- Edit mode, select sub-mode, box selected; the press point `(50,50)` is
far outside the only box `(0,0,10,10)` plus its 5-pixel tolerance. -/
def c7cex : Canvas :=
  { initCanvas with edit_enabled := true,
                    boxes := [⟨0, 0, 10, 10, "A"⟩], selected_box := some 0 }

/-- C7 counterexample: a left press on empty canvas (hit test returns
`none`) enters the panning state but does NOT clear the selection — the
no-hit branch of `mousePressEvent` never assigns `selected_box`. -/
theorem C7_counterexample :
    get_box_at_position c7cex (mapToImagePos c7cex ⟨50, 50⟩) = none ∧
    c7cex.selected_box = some 0 ∧
    (mousePressEvent c7cex .left ⟨50, 50⟩).selected_box = some 0 ∧
    (mousePressEvent c7cex .left ⟨50, 50⟩).is_panning = true := by
  have hmiss : get_box_at_position c7cex (mapToImagePos c7cex ⟨50, 50⟩) = none := by
    norm_num [get_box_at_position, find_box_at, boxHit, mapToImagePos, c7cex, initCanvas]
  refine ⟨hmiss, rfl, ?_, ?_⟩ <;>
    · unfold mousePressEvent
      simp [c7cex, initCanvas] at hmiss ⊢
      simp [hmiss]

/-- C7 (amended): with editing enabled and draw mode off, a left press at a
point where the hit test returns no box enters the panning state, records
the press position, and leaves the selection unchanged (it does not
deselect). -/
theorem C7_no_hit_press (c : Canvas) (p : Pt)
    (he : c.edit_enabled = true) (hd : c.draw_mode = false)
    (hmiss : get_box_at_position c (mapToImagePos c p) = none) :
    (mousePressEvent c .left p).is_panning = true ∧
    (mousePressEvent c .left p).last_mouse_pos = some p ∧
    (mousePressEvent c .left p).selected_box = c.selected_box := by
  unfold mousePressEvent
  simp [he, hd, hmiss]

/-- C7 witness: the amended behaviour at the concrete state. -/
theorem C7_no_hit_press_witness :
    get_box_at_position c7cex (mapToImagePos c7cex ⟨50, 50⟩) = none ∧
    (mousePressEvent c7cex .left ⟨50, 50⟩).is_panning = true ∧
    (mousePressEvent c7cex .left ⟨50, 50⟩).last_mouse_pos = some ⟨50, 50⟩ ∧
    (mousePressEvent c7cex .left ⟨50, 50⟩).selected_box = c7cex.selected_box := by
  have hmiss : get_box_at_position c7cex (mapToImagePos c7cex ⟨50, 50⟩) = none := by
    norm_num [get_box_at_position, find_box_at, boxHit, mapToImagePos, c7cex, initCanvas]
  obtain ⟨h1, h2, h3⟩ := C7_no_hit_press c7cex ⟨50, 50⟩ rfl rfl hmiss
  exact ⟨hmiss, h1, h2, h3⟩

end ClaimC7

section ClaimC8

/-- No base image, but a non-trivial offset so the zoom visibly moves it. -/
def c8cex : Canvas := { initCanvas with offset_x := 5, offset_y := 5 }

/-- C8 counterexample: with no base image set, `zoom_at_point` is NOT a
no-op — it changes `zoom_level` (only `fit_to_window` and `_constrain_view`
check for the missing pixmap). -/
theorem C8_counterexample :
    c8cex.base_pixmap = none ∧
    (zoom_at_point c8cex ⟨0, 0⟩ 2).zoom_level ≠ c8cex.zoom_level := by
  refine ⟨rfl, ?_⟩
  norm_num [zoom_at_point, zoom_at_point_apply, constrain_view, mapToImagePos,
            c8cex, initCanvas, constrain_view_zoom_level]

/-- C8 (amended): with no base image (or a null pixmap) `fit_to_window` and
`_constrain_view` are no-ops, and `fit_to_window` is also a no-op for a
zero-size viewport or image; no operation fails, but `zoom_at_point`
(and wheel zoom, which shares its body) still updates `zoom_level` whenever
the new zoom passes the range check — only the containment step is skipped. -/
theorem C8_degenerate_noops (c : Canvas) (p : Pt) (f : ℚ) (d : ℤ) :
    (c.base_pixmap = none → fit_to_window c = c) ∧
    (∀ pm, c.base_pixmap = some pm → pm.isNull = true → fit_to_window c = c) ∧
    (c.widget_width ≤ 0 ∨ c.widget_height ≤ 0 → fit_to_window c = c) ∧
    (∀ pm, c.base_pixmap = some pm → pm.width ≤ 0 ∨ pm.height ≤ 0 → fit_to_window c = c) ∧
    (c.base_pixmap = none → constrain_view c = c) ∧
    (∀ pm, c.base_pixmap = some pm → pm.isNull = true → constrain_view c = c) ∧
    (c.base_pixmap = none → 1/10 ≤ c.zoom_level * f → c.zoom_level * f ≤ 10 →
       (zoom_at_point c p f).zoom_level = c.zoom_level * f ∧
       (zoom_at_point c p f).offset_x = p.x - (mapToImagePos c p).x * (c.zoom_level * f)) ∧
    (c.base_pixmap = none → 0 < d → 1/10 ≤ c.zoom_level * (11/10) →
       c.zoom_level * (11/10) ≤ 10 →
       (wheelEvent c p d).zoom_level = c.zoom_level * (11/10)) := by
  refine ⟨?_, ?_, ?_, ?_, ?_, ?_, ?_, ?_⟩
  · intro h; unfold fit_to_window; rw [h]
  · intro pm hpm hnull; unfold fit_to_window; rw [hpm]; simp [hnull]
  · intro h; unfold fit_to_window
    rcases hpm : c.base_pixmap with _ | pm
    · rfl
    · simp only [h, if_true]
      split <;> rfl
  · intro pm hpm h; unfold fit_to_window; rw [hpm]; simp only [h, if_true]
    split <;> [rfl; split <;> rfl]
  · intro h; unfold constrain_view; rw [h]
  · intro pm hpm hnull; unfold constrain_view; rw [hpm]; simp [hnull]
  · intro h hb1 hb2
    unfold zoom_at_point
    try dsimp only
    rw [if_pos ⟨hb1, hb2⟩]
    have hcv : constrain_view (zoom_at_point_apply c p (c.zoom_level * f)) =
        zoom_at_point_apply c p (c.zoom_level * f) := by
      unfold constrain_view
      rw [zoom_at_point_apply_base_pixmap, h]
    rw [hcv]
    exact ⟨rfl, rfl⟩
  · intro h hd hb1 hb2
    unfold wheelEvent
    try dsimp only
    simp only [hd, if_true]
    rw [if_pos ⟨hb1, hb2⟩]
    have hcv : constrain_view (zoom_at_point_apply c p (c.zoom_level * (11/10))) =
        zoom_at_point_apply c p (c.zoom_level * (11/10)) := by
      unfold constrain_view
      rw [zoom_at_point_apply_base_pixmap, h]
    rw [hcv]
    rfl

/-- C8 witness: the guarded operations at a concrete imageless state. -/
theorem C8_degenerate_noops_witness :
    c8cex.base_pixmap = none ∧
    fit_to_window c8cex = c8cex ∧
    constrain_view c8cex = c8cex ∧
    (zoom_at_point c8cex ⟨0, 0⟩ 2).zoom_level = c8cex.zoom_level * 2 :=
  ⟨rfl,
   (C8_degenerate_noops c8cex ⟨0, 0⟩ 2 1).1 rfl,
   (C8_degenerate_noops c8cex ⟨0, 0⟩ 2 1).2.2.2.2.1 rfl,
   ((C8_degenerate_noops c8cex ⟨0, 0⟩ 2 1).2.2.2.2.2.2.1 rfl
     (by norm_num [c8cex, initCanvas]) (by norm_num [c8cex, initCanvas])).1⟩

end ClaimC8

section ClaimC6

lemma find_box_at_none_iff (pos : Pt) (bs : List Box) :
    find_box_at pos bs = none ↔
      ∀ j bj, bs.get? j = some bj → boxHit pos bj = false := by
  induction bs with
  | nil => simp [find_box_at]
  | cons b bs ih =>
    rw [find_box_at]
    by_cases hb : boxHit pos b = true
    · rw [if_pos hb]
      constructor
      · intro h; cases h
      · intro h
        have h0 := h 0 b rfl
        rw [h0] at hb
        cases hb
    · rw [if_neg hb, Option.map_eq_none', ih]
      constructor
      · intro h j bj hj
        cases j with
        | zero =>
          cases hj
          simpa using hb
        | succ j => exact h j bj hj
      · intro h j bj hj
        exact h (j + 1) bj hj

lemma find_box_at_some_iff (pos : Pt) (bs : List Box) (i : ℕ) :
    find_box_at pos bs = some i ↔
      (∃ bi, bs.get? i = some bi ∧ boxHit pos bi = true) ∧
      ∀ j, j < i → ∀ bj, bs.get? j = some bj → boxHit pos bj = false := by
  induction bs generalizing i with
  | nil => simp [find_box_at]
  | cons b bs ih =>
    rw [find_box_at]
    by_cases hb : boxHit pos b = true
    · rw [if_pos hb]
      constructor
      · intro h
        injection h with h
        subst h
        exact ⟨⟨b, rfl, hb⟩, fun j hj => absurd hj (Nat.not_lt_zero j)⟩
      · rintro ⟨⟨bi, hbi, hhit⟩, hmin⟩
        cases i with
        | zero => rfl
        | succ i =>
          have h0 := hmin 0 (Nat.succ_pos i) b rfl
          rw [h0] at hb
          cases hb
    · rw [if_neg hb, Option.map_eq_some']
      constructor
      · rintro ⟨k, hk, hik⟩
        subst hik
        rw [ih] at hk
        obtain ⟨⟨bi, hbi, hhit⟩, hmin⟩ := hk
        refine ⟨⟨bi, hbi, hhit⟩, ?_⟩
        intro j hj bj hj2
        cases j with
        | zero =>
          cases hj2
          simpa using hb
        | succ j => exact hmin j (Nat.lt_of_succ_lt_succ hj) bj hj2
      · rintro ⟨⟨bi, hbi, hhit⟩, hmin⟩
        cases i with
        | zero =>
          cases hbi
          exact absurd hhit hb
        | succ i =>
          refine ⟨i, ?_, rfl⟩
          rw [ih]
          exact ⟨⟨bi, hbi, hhit⟩,
                 fun j hj bj hj2 => hmin (j + 1) (Nat.succ_lt_succ hj) bj hj2⟩

lemma find_box_at_lt (pos : Pt) (bs : List Box) (i : ℕ)
    (h : find_box_at pos bs = some i) : i < bs.length := by
  obtain ⟨⟨bi, hbi, _⟩, _⟩ := (find_box_at_some_iff pos bs i).mp h
  rw [List.get?_eq_some] at hbi
  exact hbi.1

/-- The spec's tie-break example: boxes A then B, overlapping at (60,60). -/
def c6demo : Canvas :=
  { initCanvas with boxes := [⟨0, 0, 100, 100, "A"⟩, ⟨50, 50, 150, 150, "B"⟩] }

/-- C6: `get_box_at_position` returns the index of the first box in storage
order whose normalized rectangle expanded by 5 image-space pixels contains
the query point, and `none` when no box qualifies; in particular on boxes
`[(0,0,100,100,A), (50,50,150,150,B)]` the point `(60,60)` yields index 0. -/
theorem C6_hit_test (c : Canvas) (pos : Pt) (i : ℕ) (b : Box) :
    (boxHit pos b = true ↔
       (min b.x1 b.x2 - 5 ≤ pos.x ∧ pos.x ≤ max b.x1 b.x2 + 5 ∧
        min b.y1 b.y2 - 5 ≤ pos.y ∧ pos.y ≤ max b.y1 b.y2 + 5)) ∧
    (get_box_at_position c pos = some i ↔
       (∃ bi, c.boxes.get? i = some bi ∧ boxHit pos bi = true) ∧
       ∀ j, j < i → ∀ bj, c.boxes.get? j = some bj → boxHit pos bj = false) ∧
    (get_box_at_position c pos = none ↔
       ∀ j bj, c.boxes.get? j = some bj → boxHit pos bj = false) ∧
    get_box_at_position c6demo ⟨60, 60⟩ = some 0 := by
  refine ⟨?_, find_box_at_some_iff pos c.boxes i, find_box_at_none_iff pos c.boxes, ?_⟩
  · simp [boxHit, and_assoc]
  · norm_num [get_box_at_position, find_box_at, boxHit, c6demo, initCanvas]

/-- C6 witness: the tie-break instance, read off the characterization. -/
theorem C6_hit_test_witness :
    get_box_at_position c6demo ⟨60, 60⟩ = some 0 :=
  (C6_hit_test c6demo ⟨60, 60⟩ 0 ⟨0, 0, 0, 0, ""⟩).2.2.2

end ClaimC6

section ClaimC9

/-- C9: `auto_fit` is true right after `set_image`; a pan step (panning
state, left button held) sets it false; a `zoom_at_point` or wheel event
that changes the zoom sets it false; and once `auto_fit` is false a viewport
resize event leaves zoom and offsets unchanged. -/
theorem C9_auto_fit_persistence (c : Canvas) (pm : Pixmap) (p : Pt) (lp : Pt)
    (f : ℚ) (d : ℤ) (w hgt : ℚ) :
    (set_image c pm).auto_fit = true ∧
    (c.is_panning = true → c.last_mouse_pos = some lp →
       (mouseMoveEvent c true p).auto_fit = false) ∧
    ((zoom_at_point c p f).zoom_level ≠ c.zoom_level →
       (zoom_at_point c p f).auto_fit = false) ∧
    ((wheelEvent c p d).zoom_level ≠ c.zoom_level →
       (wheelEvent c p d).auto_fit = false) ∧
    (c.auto_fit = false →
       (resizeEvent c w hgt).zoom_level = c.zoom_level ∧
       (resizeEvent c w hgt).offset_x = c.offset_x ∧
       (resizeEvent c w hgt).offset_y = c.offset_y) := by
  refine ⟨?_, ?_, ?_, ?_, ?_⟩
  · simp [set_image, clear_boxes, fit_to_window_auto_fit]
  · intro hp hl
    unfold mouseMoveEvent
    simp [hp, hl]
  · intro hne
    by_cases hg : 1/10 ≤ c.zoom_level * f ∧ c.zoom_level * f ≤ 10
    · unfold zoom_at_point
      try dsimp only
      rw [if_pos hg]
    · exfalso
      apply hne
      unfold zoom_at_point
      try dsimp only
      rw [if_neg hg]
  · intro hne
    by_cases hg0 : d > 0
    · by_cases hg : 1/10 ≤ c.zoom_level * (11/10 : ℚ) ∧ c.zoom_level * (11/10 : ℚ) ≤ 10
      · unfold wheelEvent
        simp only [hg0, if_true]
        rw [if_pos hg]
      · exfalso
        apply hne
        unfold wheelEvent
        simp only [hg0, if_true]
        rw [if_neg hg]
    · by_cases hg : 1/10 ≤ c.zoom_level * (10/11 : ℚ) ∧ c.zoom_level * (10/11 : ℚ) ≤ 10
      · unfold wheelEvent
        simp only [hg0, if_false]
        rw [if_pos hg]
      · exfalso
        apply hne
        unfold wheelEvent
        simp only [hg0, if_false]
        rw [if_neg hg]
  · intro hf
    unfold resizeEvent
    try dsimp only
    simp [hf]

/-- A state in the middle of a pan drag. -/
def c9pan : Canvas :=
  { initCanvas with is_panning := true, last_mouse_pos := some ⟨0, 0⟩ }

/-- A state where the user has already panned or zoomed manually. -/
def c9manual : Canvas := { initCanvas with auto_fit := false, zoom_level := 3 }

/-- C9 witness: the four behaviours at concrete states. -/
theorem C9_auto_fit_persistence_witness :
    (set_image initCanvas ⟨10, 10, false⟩).auto_fit = true ∧
    (mouseMoveEvent c9pan true ⟨4, 7⟩).auto_fit = false ∧
    (zoom_at_point initCanvas ⟨0, 0⟩ 2).auto_fit = false ∧
    (resizeEvent c9manual 500 400).zoom_level = c9manual.zoom_level :=
  ⟨(C9_auto_fit_persistence initCanvas ⟨10, 10, false⟩ ⟨0, 0⟩ ⟨0, 0⟩ 1 1 1 1).1,
   (C9_auto_fit_persistence c9pan ⟨10, 10, false⟩ ⟨4, 7⟩ ⟨0, 0⟩ 1 1 1 1).2.1 rfl rfl,
   (C9_auto_fit_persistence initCanvas ⟨10, 10, false⟩ ⟨0, 0⟩ ⟨0, 0⟩ 2 1 1 1).2.2.1
     (by norm_num [initCanvas, zoom_at_point, zoom_at_point_apply, constrain_view,
                   mapToImagePos]),
   ((C9_auto_fit_persistence c9manual ⟨10, 10, false⟩ ⟨0, 0⟩ ⟨0, 0⟩ 1 1 500 400).2.2.2.2
     rfl).1⟩

end ClaimC9

section ClaimC10

/-- The selection-validity invariant: the selected index, when present, is a
valid index into the box list. -/
def SelValid (c : Canvas) : Prop :=
  ∀ i, c.selected_box = some i → i < c.boxes.length

lemma selValid_clear_boxes (c : Canvas) : SelValid (clear_boxes c) := by
  intro i hi
  simp [clear_boxes] at hi

lemma selValid_load_boxes (c : Canvas) (bl : List Box) :
    SelValid (load_boxes c bl) := by
  intro i hi
  simp [load_boxes] at hi

lemma selValid_fit_to_window (c : Canvas) (h : SelValid c) :
    SelValid (fit_to_window c) := by
  intro i hi
  rw [fit_to_window_selected_box] at hi
  rw [fit_to_window_boxes]
  exact h i hi

lemma selValid_set_image (c : Canvas) (pm : Pixmap) :
    SelValid (set_image c pm) := by
  unfold set_image
  exact selValid_clear_boxes _

lemma selValid_constrain_view (c : Canvas) (h : SelValid c) :
    SelValid (constrain_view c) := by
  intro i hi
  rw [constrain_view_selected_box] at hi
  rw [constrain_view_boxes]
  exact h i hi

lemma selValid_zoom_at_point (c : Canvas) (p : Pt) (f : ℚ) (h : SelValid c) :
    SelValid (zoom_at_point c p f) := by
  intro i hi
  rw [zoom_at_point_selected_box] at hi
  rw [zoom_at_point_boxes]
  exact h i hi

lemma selValid_wheelEvent (c : Canvas) (p : Pt) (d : ℤ) (h : SelValid c) :
    SelValid (wheelEvent c p d) := by
  intro i hi
  rw [wheelEvent_selected_box] at hi
  rw [wheelEvent_boxes]
  exact h i hi

lemma selValid_resize_box (c : Canvas) (p : Pt) (h : SelValid c) :
    SelValid (resize_box c p) := by
  intro i hi
  rw [resize_box_selected_box] at hi
  rw [resize_box_boxes_length]
  exact h i hi

lemma selValid_mouseMoveEvent (c : Canvas) (lh : Bool) (p : Pt) (h : SelValid c) :
    SelValid (mouseMoveEvent c lh p) := by
  intro i hi
  rw [mouseMoveEvent_selected_box] at hi
  rw [mouseMoveEvent_boxes_length]
  exact h i hi

lemma selValid_resizeEvent (c : Canvas) (w hgt : ℚ) (h : SelValid c) :
    SelValid (resizeEvent c w hgt) := by
  unfold resizeEvent
  try dsimp only
  split
  · exact selValid_fit_to_window _ h
  · exact h

lemma selValid_delete_selected_box (c : Canvas) (h : SelValid c) :
    SelValid (delete_selected_box c) := by
  unfold delete_selected_box
  cases hs : c.selected_box with
  | none => exact h
  | some s =>
    try dsimp only
    by_cases hlen : s < c.boxes.length
    · rw [if_pos hlen]
      intro i hi
      simp at hi
    · rw [if_neg hlen]
      exact h

lemma selValid_delete_box_at_position (c : Canvas) (pos : Pt) (h : SelValid c) :
    SelValid (delete_box_at_position c pos).1 := by
  unfold delete_box_at_position
  cases hg : get_box_at_position c pos with
  | none => exact h
  | some k =>
    have hk : k < c.boxes.length := find_box_at_lt pos c.boxes k hg
    have hel : (c.boxes.eraseIdx k).length + 1 = c.boxes.length :=
      List.length_eraseIdx_add_one hk
    intro i hi
    dsimp at hi ⊢
    cases hs : c.selected_box with
    | none => rw [hs] at hi; simp at hi
    | some s =>
      rw [hs] at hi
      try dsimp only at hi
      have hsl : s < c.boxes.length := h s hs
      by_cases he : s = k
      · simp [he] at hi
      · rw [if_neg he] at hi
        by_cases hgt : s > k
        · rw [if_pos hgt] at hi
          injection hi with hi
          omega
        · rw [if_neg hgt] at hi
          injection hi with hi
          omega

lemma selValid_keyPressEvent (c : Canvas) (k : Key) (h : SelValid c) :
    SelValid (keyPressEvent c k) := by
  unfold keyPressEvent
  repeat' split
  all_goals first
    | exact h
    | exact selValid_delete_selected_box c h
    | (intro i hi; simp at hi)

lemma selValid_mouseReleaseEvent (c : Canvas) (b : MouseButton) (h : SelValid c) :
    SelValid (mouseReleaseEvent c b) := by
  unfold mouseReleaseEvent
  repeat' split
  all_goals first
    | exact h
    | (intro i hi
       simp only [Option.some.injEq] at hi
       subst hi
       simp)

lemma selValid_mousePressEvent (c : Canvas) (b : MouseButton) (p : Pt)
    (h : SelValid c) : SelValid (mousePressEvent c b p) := by
  unfold mousePressEvent
  by_cases he : c.edit_enabled = true
  · simp only [he, Bool.not_true, Bool.false_eq_true, if_false]
    cases b with
    | right => exact h
    | left =>
      by_cases hd : c.draw_mode = true
      · rw [if_pos hd]
        intro i hi
        simp at hi
      · rw [if_neg hd]
        cases hg : get_box_at_position c (mapToImagePos c p) with
        | none => exact h
        | some k =>
          have hk : k < c.boxes.length :=
            find_box_at_lt (mapToImagePos c p) c.boxes k hg
          try dsimp only
          repeat' split
          all_goals
            intro i hi
          all_goals
            simp only [Option.some.injEq] at hi
          all_goals
            subst hi
          all_goals
            simpa using hk
  · have hb : c.edit_enabled = false := by
      simpa using he
    simp only [hb, Bool.not_false, if_true]
    cases b with
    | left => exact h
    | right => exact selValid_zoom_at_point c p (5/6) h

/-- C10: every modelled canvas operation preserves validity of the selected
index (`selected_box` is `none` or a valid index into `boxes`); moreover
`delete_box_at_position` clears the selection when the deleted index was
selected and decrements it when the selection lay above it, `load_boxes` and
`clear_boxes` reset it to `none`, and committing a drawn box selects the
index of the just-appended box. -/
theorem C10_selection_valid (c : Canvas) (pm : Pixmap) (bl : List Box)
    (pos p q : Pt) (b : MouseButton) (k : Key) (lh : Bool) (f : ℚ) (d : ℤ)
    (w hgt : ℚ) (cb : Box)
    (h : ∀ i, c.selected_box = some i → i < c.boxes.length) :
    (∀ i, (set_image c pm).selected_box = some i → i < (set_image c pm).boxes.length) ∧
    (∀ i, (load_boxes c bl).selected_box = some i → i < (load_boxes c bl).boxes.length) ∧
    (∀ i, (clear_boxes c).selected_box = some i → i < (clear_boxes c).boxes.length) ∧
    (∀ i, (delete_selected_box c).selected_box = some i →
       i < (delete_selected_box c).boxes.length) ∧
    (∀ i, (delete_box_at_position c pos).1.selected_box = some i →
       i < (delete_box_at_position c pos).1.boxes.length) ∧
    (∀ i, (mousePressEvent c b p).selected_box = some i →
       i < (mousePressEvent c b p).boxes.length) ∧
    (∀ i, (mouseMoveEvent c lh p).selected_box = some i →
       i < (mouseMoveEvent c lh p).boxes.length) ∧
    (∀ i, (mouseReleaseEvent c b).selected_box = some i →
       i < (mouseReleaseEvent c b).boxes.length) ∧
    (∀ i, (keyPressEvent c k).selected_box = some i →
       i < (keyPressEvent c k).boxes.length) ∧
    (∀ i, (zoom_at_point c p f).selected_box = some i →
       i < (zoom_at_point c p f).boxes.length) ∧
    (∀ i, (wheelEvent c q d).selected_box = some i →
       i < (wheelEvent c q d).boxes.length) ∧
    (∀ i, (fit_to_window c).selected_box = some i →
       i < (fit_to_window c).boxes.length) ∧
    (∀ i, (resizeEvent c w hgt).selected_box = some i →
       i < (resizeEvent c w hgt).boxes.length) ∧
    (∀ i, (resize_box c pos).selected_box = some i →
       i < (resize_box c pos).boxes.length) ∧
    (load_boxes c bl).selected_box = none ∧
    (clear_boxes c).selected_box = none ∧
    (∀ s idx, get_box_at_position c pos = some idx → c.selected_box = some s →
       (s = idx → (delete_box_at_position c pos).1.selected_box = none) ∧
       (s > idx → (delete_box_at_position c pos).1.selected_box = some (s - 1))) ∧
    (c.edit_enabled = true → c.draw_mode = true → c.is_panning = false →
       c.current_box = some cb → |cb.x2 - cb.x1| > 5 → |cb.y2 - cb.y1| > 5 →
       (mouseReleaseEvent c .left).boxes = c.boxes ++ [cb] ∧
       (mouseReleaseEvent c .left).selected_box = some c.boxes.length) := by
  refine ⟨selValid_set_image c pm, selValid_load_boxes c bl, selValid_clear_boxes c,
    selValid_delete_selected_box c h, selValid_delete_box_at_position c pos h,
    selValid_mousePressEvent c b p h, selValid_mouseMoveEvent c lh p h,
    selValid_mouseReleaseEvent c b h, selValid_keyPressEvent c k h,
    selValid_zoom_at_point c p f h, selValid_wheelEvent c q d h,
    selValid_fit_to_window c h, selValid_resizeEvent c w hgt h,
    selValid_resize_box c pos h, rfl, rfl, ?_, ?_⟩
  · intro s idx hg hs
    unfold delete_box_at_position
    rw [hg]
    try dsimp only
    rw [hs]
    try dsimp only
    constructor
    · intro heq
      simp [heq]
    · intro hgt
      rw [if_neg (by omega : ¬s = idx), if_pos hgt]
  · intro he hd hp hc h1 h2
    unfold mouseReleaseEvent
    simp [hp, he, hd, hc, h1, h2]

/-- Boxes [A, B, C] with C (index 2) selected; point (60,60) hits only A. -/
def c10wit : Canvas :=
  { initCanvas with
      boxes := [⟨0, 0, 100, 100, "A"⟩, ⟨200, 200, 300, 300, "B"⟩,
                ⟨400, 400, 500, 500, "C"⟩],
      selected_box := some 2 }

/-- C10 witness: the delete-reindexing and reset behaviours at a concrete
state — deleting index 0 shifts the selection from 2 to 1, and `load_boxes`
resets it. -/
theorem C10_selection_valid_witness :
    get_box_at_position c10wit ⟨60, 60⟩ = some 0 ∧
    (delete_box_at_position c10wit ⟨60, 60⟩).1.selected_box = some 1 ∧
    (load_boxes c10wit []).selected_box = none ∧
    (∀ i, (delete_box_at_position c10wit ⟨60, 60⟩).1.selected_box = some i →
       i < (delete_box_at_position c10wit ⟨60, 60⟩).1.boxes.length) := by
  have hg : get_box_at_position c10wit ⟨60, 60⟩ = some 0 := by
    norm_num [get_box_at_position, find_box_at, boxHit, c10wit, initCanvas]
  have hsel : ∀ i, c10wit.selected_box = some i → i < c10wit.boxes.length := by
    intro i hi
    simp only [c10wit] at hi ⊢
    injection hi with hi
    subst hi
    simp
  obtain ⟨-, -, -, -, hdel, -, -, -, -, -, -, -, -, -, hload, -, hspec, -⟩ :=
    C10_selection_valid c10wit ⟨0, 0, false⟩ [] ⟨60, 60⟩ ⟨0, 0⟩ ⟨0, 0⟩ .left .other
      true 1 1 1 1 ⟨0, 0, 0, 0, ""⟩ hsel
  have h21 := (hspec 2 0 hg rfl).2 (by omega)
  exact ⟨hg, h21, hload, hdel⟩

end ClaimC10

end InsightLabeler
